import Mathlib

/-!
Verification of the schema module of `melvin-portfolio` (src/schema.ts).

The source file declares eight PostgreSQL tables through drizzle-orm
(`pgTable`), derives zod insert-validation schemas from them through
drizzle-zod (`createInsertSchema` + `.pick`), and declares relation
metadata.  We shallowly embed:

* the column metadata of each `pgTable` call (name, column type,
  NOT NULL, default, UNIQUE, foreign-key reference, primary key);
* the drizzle-zod/zod validation semantics of the derived insert
  schemas (`validateWith` below models `schema.safeParse`);
* a store semantics interpreting the declared constraints the way the
  PostgreSQL backend enforces them (serial id assignment, column
  defaults, unique columns, composite primary key, foreign keys).
-/

/-- A JSON-ish runtime value, as seen by the zod validators. -/
inductive Value where
  | str (s : String)
  | int (n : Int)
  | bool (b : Bool)
  | timestamp (t : Int)
  | null
deriving Repr, DecidableEq

/-- The drizzle column type constructors used in src/schema.ts. -/
inductive ColType where
  | text
  | integer
  | boolean
  | serial
  | timestamp
deriving Repr, DecidableEq

/-- One column of a `pgTable` declaration: TS property name, SQL column
name, type constructor, and the chained modifiers `.notNull()`,
`.default(...)` / `.defaultNow()` (recorded as `hasDefault`),
`.unique()`, `.references(...)` (the referenced table's name).
A `serial` column is implicitly NOT NULL with a sequence default. -/
structure Column where
  name : String
  dbName : String
  ty : ColType
  notNull : Bool
  hasDefault : Bool
  unique : Bool
  refs : Option String
deriving Repr, DecidableEq

/-- A `pgTable` declaration: table name, columns, primary-key columns
(the `serial("id").primaryKey()` column, or the explicit composite
`primaryKey({ columns })` of the junction table). -/
structure Table where
  name : String
  columns : List Column
  pk : List String
deriving Repr, DecidableEq

/-- An untyped key-value record (a JS object) presented to a validator. -/
def Record := List (String × Value)
deriving Repr, DecidableEq

def Record.lookup (r : Record) (k : String) : Option Value :=
  (List.find? (fun p => p.1 == k) r).map Prod.snd

/-- `messages` table (contact form submissions). -/
def messages : Table :=
  ⟨"messages",
   [⟨"id", "id", .serial, true, true, false, none⟩,
    ⟨"name", "name", .text, true, false, false, none⟩,
    ⟨"email", "email", .text, true, false, false, none⟩,
    ⟨"subject", "subject", .text, false, false, false, none⟩,
    ⟨"message", "message", .text, true, false, false, none⟩,
    ⟨"createdAt", "created_at", .timestamp, true, true, false, none⟩],
   ["id"]⟩

/-- `users` table. -/
def users : Table :=
  ⟨"users",
   [⟨"id", "id", .serial, true, true, false, none⟩,
    ⟨"username", "username", .text, true, false, true, none⟩,
    ⟨"password", "password", .text, true, false, false, none⟩],
   ["id"]⟩

/-- `projects` table. -/
def projects : Table :=
  ⟨"projects",
   [⟨"id", "id", .serial, true, true, false, none⟩,
    ⟨"title", "title", .text, true, false, false, none⟩,
    ⟨"description", "description", .text, true, false, false, none⟩,
    ⟨"image", "image", .text, false, false, false, none⟩,
    ⟨"github", "github", .text, true, false, false, none⟩,
    ⟨"liveUrl", "live_url", .text, false, false, false, none⟩,
    ⟨"featured", "featured", .boolean, false, true, false, none⟩,
    ⟨"createdAt", "created_at", .timestamp, true, true, false, none⟩],
   ["id"]⟩

/-- `tags` table. -/
def tags : Table :=
  ⟨"tags",
   [⟨"id", "id", .serial, true, true, false, none⟩,
    ⟨"name", "name", .text, true, false, true, none⟩,
    ⟨"color", "color", .text, false, true, false, none⟩],
   ["id"]⟩

/-- `project_tags` junction table: two NOT NULL foreign keys forming a
composite primary key, no serial id column. -/
def projectTags : Table :=
  ⟨"project_tags",
   [⟨"projectId", "project_id", .integer, true, false, false, some "projects"⟩,
    ⟨"tagId", "tag_id", .integer, true, false, false, some "tags"⟩],
   ["projectId", "tagId"]⟩

/-- `skills` table. -/
def skills : Table :=
  ⟨"skills",
   [⟨"id", "id", .serial, true, true, false, none⟩,
    ⟨"name", "name", .text, true, false, true, none⟩,
    ⟨"icon", "icon", .text, true, false, false, none⟩,
    ⟨"category", "category", .text, true, false, false, none⟩,
    ⟨"description", "description", .text, false, false, false, none⟩,
    ⟨"order", "order", .integer, false, true, false, none⟩],
   ["id"]⟩

/-- `experiences` table (`type` is a plain `text(...).notNull()` column:
the "work" / "education" restriction is only a source comment). -/
def experiences : Table :=
  ⟨"experiences",
   [⟨"id", "id", .serial, true, true, false, none⟩,
    ⟨"title", "title", .text, true, false, false, none⟩,
    ⟨"subtitle", "subtitle", .text, true, false, false, none⟩,
    ⟨"date", "date", .text, false, false, false, none⟩,
    ⟨"type", "type", .text, true, false, false, none⟩,
    ⟨"order", "order", .integer, false, true, false, none⟩],
   ["id"]⟩

/-- `experience_details` table. -/
def experienceDetails : Table :=
  ⟨"experience_details",
   [⟨"id", "id", .serial, true, true, false, none⟩,
    ⟨"experienceId", "experience_id", .integer, true, false, false, some "experiences"⟩,
    ⟨"detail", "detail", .text, true, false, false, none⟩,
    ⟨"order", "order", .integer, false, true, false, none⟩],
   ["id"]⟩

/-- drizzle-zod `createInsertSchema(table)`: a zod object schema with one
field per column of the table. -/
def createInsertSchema (t : Table) : List Column :=
  t.columns

/-- zod `.pick({ k: true, ... })`: keep only the named fields. -/
def pick (cols : List Column) (ks : List String) : List Column :=
  cols.filter (fun c => ks.contains c.name)

def insertMessageSchema : List Column :=
  pick (createInsertSchema messages) ["name", "email", "subject", "message"]

def insertUserSchema : List Column :=
  pick (createInsertSchema users) ["username", "password"]

def insertProjectSchema : List Column :=
  pick (createInsertSchema projects)
    ["title", "description", "image", "github", "liveUrl", "featured"]

def insertTagSchema : List Column :=
  pick (createInsertSchema tags) ["name", "color"]

def insertProjectTagSchema : List Column :=
  createInsertSchema projectTags

def insertSkillSchema : List Column :=
  pick (createInsertSchema skills)
    ["name", "icon", "category", "description", "order"]

def insertExperienceSchema : List Column :=
  pick (createInsertSchema experiences)
    ["title", "subtitle", "date", "type", "order"]

def insertExperienceDetailSchema : List Column :=
  pick (createInsertSchema experienceDetails)
    ["experienceId", "detail", "order"]

/-- One field-level violation reported by a failed validation, as in a
zod issue: the field's path and a message. -/
structure Issue where
  path : String
  message : String
deriving Repr, DecidableEq

/-- drizzle-zod field optionality: a field may be omitted when its
column is nullable or carries a database default. -/
def Column.isOptional (c : Column) : Bool :=
  !c.notNull || c.hasDefault

/-- drizzle-zod field nullability: `null` is accepted exactly for
columns without `.notNull()`. -/
def Column.isNullable (c : Column) : Bool :=
  !c.notNull

/-- The zod primitive type a drizzle column maps to, as a value test. -/
def typeMatches (ty : ColType) (v : Value) : Bool :=
  match ty, v with
  | .text, .str _ => true
  | .integer, .int _ => true
  | .boolean, .bool _ => true
  | .serial, .int _ => true
  | .timestamp, .timestamp _ => true
  | _, _ => false

/-- Check one present value against its column's zod field type. -/
def checkValue (c : Column) (v : Value) : Option Issue :=
  match v with
  | .null => if c.isNullable then none else some ⟨c.name, "invalid_type"⟩
  | _ => if typeMatches c.ty v then none else some ⟨c.name, "invalid_type"⟩

/-- Validate one field of a zod object schema against a candidate
record: `Sum.inr` is a violation, `Sum.inl` the field's contribution to
the parsed output (absent optional fields contribute nothing). -/
def checkField (c : Column) (r : Record) : (Option (String × Value)) ⊕ Issue :=
  match r.lookup c.name with
  | none => if c.isOptional then .inl none else .inr ⟨c.name, "Required"⟩
  | some v =>
    match checkValue c v with
    | none => .inl (some (c.name, v))
    | some i => .inr i

/-- The violations collected over all fields of a schema. -/
def collectIssues (cols : List Column) (r : Record) : List Issue :=
  (cols.map (fun c => checkField c r)).filterMap
    (fun x => match x with | .inr i => some i | .inl _ => none)

/-- The parsed object on success: exactly the schema's known keys that
were present (zod strips unknown keys). -/
def parsedOutput (cols : List Column) (r : Record) : Record :=
  (cols.map (fun c => checkField c r)).filterMap
    (fun x => match x with | .inl o => o | .inr _ => none)

/-- zod `safeParse` on an object schema: every field is checked, all
violations are collected; on success the parsed object keeps exactly the
schema's known keys; zod never throws on malformed input, it returns the
issue list. -/
def validateWith (cols : List Column) (r : Record) : Except (List Issue) Record :=
  match collectIssues cols r with
  | [] => .ok (parsedOutput cols r)
  | issues => .error issues

instance {ε α : Type} [DecidableEq ε] [DecidableEq α] : DecidableEq (Except ε α) := fun a b =>
  match a, b with
  | .ok x, .ok y => decidable_of_iff (x = y) (by simp)
  | .error x, .error y => decidable_of_iff (x = y) (by simp)
  | .ok _, .error _ => isFalse (by simp)
  | .error _, .ok _ => isFalse (by simp)

example : validateWith insertUserSchema [("username", .str "a"), ("password", .str "b")]
    = .ok [("username", .str "a"), ("password", .str "b")] := by decide

example : validateWith insertUserSchema [("username", .str "a")]
    = .error [⟨"password", "Required"⟩] := by decide

/-!
## Store semantics

The persisted shapes (`typeof table.$inferSelect` in the source) and the
PostgreSQL-level behaviour of the declared constraints: serial id
assignment, application of column defaults, UNIQUE columns, the
composite primary key of `project_tags`, and foreign keys.  A column
declared without `.notNull()` is nullable in the persisted shape and is
embedded as an `Option`.
-/

/-- What a caller supplies for one nullable and/or defaulted column of an
insert: the field can be omitted, set to SQL NULL, or set to a value. -/
inductive ColVal (α : Type) where
  | absent
  | null
  | val (a : α)
deriving Repr, DecidableEq

/-- PostgreSQL insert semantics for one column with default `d` (`none`
for no default): an omitted field takes the default, an explicit NULL is
stored as NULL, a value is stored as given. -/
def ColVal.resolve {α : Type} (d : Option α) : ColVal α → Option α
  | .absent => d
  | .null => none
  | .val a => some a

/-- Persisted shape of `messages` (`Message` in the source). -/
structure Message where
  id : Int
  name : String
  email : String
  subject : Option String
  message : String
  createdAt : Int
deriving Repr, DecidableEq

/-- Persisted shape of `users` (`User` in the source). -/
structure User where
  id : Int
  username : String
  password : String
deriving Repr, DecidableEq

/-- Persisted shape of `projects` (`Project` in the source). -/
structure Project where
  id : Int
  title : String
  description : String
  image : Option String
  github : String
  liveUrl : Option String
  featured : Option Bool
  createdAt : Int
deriving Repr, DecidableEq

/-- Persisted shape of `tags` (`Tag` in the source). -/
structure Tag where
  id : Int
  name : String
  color : Option String
deriving Repr, DecidableEq

/-- Persisted shape of `project_tags` (`ProjectTag` in the source). -/
structure ProjectTag where
  projectId : Int
  tagId : Int
deriving Repr, DecidableEq

/-- Persisted shape of `skills` (`Skill` in the source). -/
structure Skill where
  id : Int
  name : String
  icon : String
  category : String
  description : Option String
  order : Option Int
deriving Repr, DecidableEq

/-- Persisted shape of `experiences` (`Experience` in the source). -/
structure Experience where
  id : Int
  title : String
  subtitle : String
  date : Option String
  type : String
  order : Option Int
deriving Repr, DecidableEq

/-- Persisted shape of `experience_details` (`ExperienceDetail`). -/
structure ExperienceDetail where
  id : Int
  experienceId : Int
  detail : String
  order : Option Int
deriving Repr, DecidableEq

/-- Insertable shape of `messages` (`InsertMessage` in the source). -/
structure InsertMessage where
  name : String
  email : String
  subject : ColVal String
  message : String
deriving Repr, DecidableEq

/-- Insertable shape of `users` (`InsertUser` in the source). -/
structure InsertUser where
  username : String
  password : String
deriving Repr, DecidableEq

/-- Insertable shape of `projects` (`InsertProject` in the source). -/
structure InsertProject where
  title : String
  description : String
  image : ColVal String
  github : String
  liveUrl : ColVal String
  featured : ColVal Bool
deriving Repr, DecidableEq

/-- Insertable shape of `tags` (`InsertTag` in the source). -/
structure InsertTag where
  name : String
  color : ColVal String
deriving Repr, DecidableEq

/-- Insertable shape of `project_tags` (`InsertProjectTag`). -/
structure InsertProjectTag where
  projectId : Int
  tagId : Int
deriving Repr, DecidableEq

/-- Insertable shape of `skills` (`InsertSkill` in the source). -/
structure InsertSkill where
  name : String
  icon : String
  category : String
  description : ColVal String
  order : ColVal Int
deriving Repr, DecidableEq

/-- Insertable shape of `experiences` (`InsertExperience`). -/
structure InsertExperience where
  title : String
  subtitle : String
  date : ColVal String
  type : String
  order : ColVal Int
deriving Repr, DecidableEq

/-- Insertable shape of `experience_details` (`InsertExperienceDetail`). -/
structure InsertExperienceDetail where
  experienceId : Int
  detail : String
  order : ColVal Int
deriving Repr, DecidableEq

/-- Build the persisted `messages` row: serial id, `created_at` from
`defaultNow()`, no default for the nullable `subject`. -/
def Message.fromInsert (id : Int) (v : InsertMessage) (now : Int) : Message :=
  ⟨id, v.name, v.email, v.subject.resolve none, v.message, now⟩

/-- Build the persisted `users` row: serial id. -/
def User.fromInsert (id : Int) (v : InsertUser) : User :=
  ⟨id, v.username, v.password⟩

/-- Build the persisted `projects` row: serial id, `featured` defaults
to `false`, `created_at` from `defaultNow()`. -/
def Project.fromInsert (id : Int) (v : InsertProject) (now : Int) : Project :=
  ⟨id, v.title, v.description, v.image.resolve none, v.github,
   v.liveUrl.resolve none, v.featured.resolve (some false), now⟩

/-- Build the persisted `tags` row: serial id, `color` defaults to
`"gray"`. -/
def Tag.fromInsert (id : Int) (v : InsertTag) : Tag :=
  ⟨id, v.name, v.color.resolve (some "gray")⟩

/-- Build the persisted `skills` row: serial id, `order` defaults to 0. -/
def Skill.fromInsert (id : Int) (v : InsertSkill) : Skill :=
  ⟨id, v.name, v.icon, v.category, v.description.resolve none,
   v.order.resolve (some 0)⟩

/-- Build the persisted `experiences` row: serial id, `order` defaults
to 0. -/
def Experience.fromInsert (id : Int) (v : InsertExperience) : Experience :=
  ⟨id, v.title, v.subtitle, v.date.resolve none, v.type, v.order.resolve (some 0)⟩

/-- Build the persisted `experience_details` row: serial id, `order`
defaults to 0. -/
def ExperienceDetail.fromInsert (id : Int) (v : InsertExperienceDetail) : ExperienceDetail :=
  ⟨id, v.experienceId, v.detail, v.order.resolve (some 0)⟩

/-- The database state: one row list per table, plus the next value of
each serial id sequence. -/
structure Store where
  messages : List Message
  users : List User
  projects : List Project
  tags : List Tag
  projectTags : List ProjectTag
  skills : List Skill
  experiences : List Experience
  experienceDetails : List ExperienceDetail
  nextMessageId : Int
  nextUserId : Int
  nextProjectId : Int
  nextTagId : Int
  nextSkillId : Int
  nextExperienceId : Int
  nextExperienceDetailId : Int
deriving Repr, DecidableEq

/-- The freshly created database: empty tables, sequences at 1. -/
def Store.empty : Store :=
  ⟨[], [], [], [], [], [], [], [], 1, 1, 1, 1, 1, 1, 1⟩

/-- Storage-layer rejection: unique-column violation, composite
primary-key violation, foreign-key violation. -/
inductive DBError where
  | uniqueViolation (table column : String)
  | pkViolation (table : String)
  | fkViolation (table column : String)
deriving Repr, DecidableEq


/-- Insert a contact message (no constraints besides NOT NULL, which the
insertable shape already guarantees). -/
def Store.insertMessage (s : Store) (v : InsertMessage) (now : Int) : Except DBError Store :=
  .ok { s with messages := s.messages ++ [Message.fromInsert s.nextMessageId v now],
               nextMessageId := s.nextMessageId + 1 }

/-- Insert a user; `username` is UNIQUE. -/
def Store.insertUser (s : Store) (v : InsertUser) : Except DBError Store :=
  if s.users.any (fun u => u.username == v.username) then
    .error (.uniqueViolation "users" "username")
  else
    .ok { s with users := s.users ++ [User.fromInsert s.nextUserId v],
                 nextUserId := s.nextUserId + 1 }

/-- Insert a project (no unique or foreign-key constraints). -/
def Store.insertProject (s : Store) (v : InsertProject) (now : Int) : Except DBError Store :=
  .ok { s with projects := s.projects ++ [Project.fromInsert s.nextProjectId v now],
               nextProjectId := s.nextProjectId + 1 }

/-- Insert a tag; `name` is UNIQUE. -/
def Store.insertTag (s : Store) (v : InsertTag) : Except DBError Store :=
  if s.tags.any (fun t => t.name == v.name) then
    .error (.uniqueViolation "tags" "name")
  else
    .ok { s with tags := s.tags ++ [Tag.fromInsert s.nextTagId v],
                 nextTagId := s.nextTagId + 1 }

/-- Insert a project-tag association: both columns are foreign keys and
the pair is the composite primary key. -/
def Store.insertProjectTag (s : Store) (v : InsertProjectTag) : Except DBError Store :=
  if !(s.projects.any (fun p => p.id == v.projectId)) then
    .error (.fkViolation "project_tags" "project_id")
  else if !(s.tags.any (fun t => t.id == v.tagId)) then
    .error (.fkViolation "project_tags" "tag_id")
  else if s.projectTags.any (fun r => r.projectId == v.projectId && r.tagId == v.tagId) then
    .error (.pkViolation "project_tags")
  else
    .ok { s with projectTags := s.projectTags ++ [⟨v.projectId, v.tagId⟩] }

/-- Insert a skill; `name` is UNIQUE. -/
def Store.insertSkill (s : Store) (v : InsertSkill) : Except DBError Store :=
  if s.skills.any (fun k => k.name == v.name) then
    .error (.uniqueViolation "skills" "name")
  else
    .ok { s with skills := s.skills ++ [Skill.fromInsert s.nextSkillId v],
                 nextSkillId := s.nextSkillId + 1 }

/-- Insert an experience (no unique or foreign-key constraints; `type`
is an unconstrained text column). -/
def Store.insertExperience (s : Store) (v : InsertExperience) : Except DBError Store :=
  .ok { s with experiences := s.experiences ++ [Experience.fromInsert s.nextExperienceId v],
               nextExperienceId := s.nextExperienceId + 1 }

/-- Insert an experience detail; `experience_id` references
`experiences.id`. -/
def Store.insertExperienceDetail (s : Store) (v : InsertExperienceDetail) : Except DBError Store :=
  if !(s.experiences.any (fun e => e.id == v.experienceId)) then
    .error (.fkViolation "experience_details" "experience_id")
  else
    .ok { s with experienceDetails :=
                   s.experienceDetails ++ [ExperienceDetail.fromInsert s.nextExperienceDetailId v],
                 nextExperienceDetailId := s.nextExperienceDetailId + 1 }

/-- Delete a message by id. -/
def Store.deleteMessage (s : Store) (id : Int) : Except DBError Store :=
  .ok { s with messages := s.messages.filter (fun m => m.id != id) }

/-- Delete a user by id. -/
def Store.deleteUser (s : Store) (id : Int) : Except DBError Store :=
  .ok { s with users := s.users.filter (fun u => u.id != id) }

/-- Delete a project by id; rejected while a `project_tags` row still
references it (PostgreSQL NO ACTION). -/
def Store.deleteProject (s : Store) (id : Int) : Except DBError Store :=
  if s.projectTags.any (fun r => r.projectId == id) then
    .error (.fkViolation "project_tags" "project_id")
  else
    .ok { s with projects := s.projects.filter (fun p => p.id != id) }

/-- Delete a tag by id; rejected while a `project_tags` row still
references it. -/
def Store.deleteTag (s : Store) (id : Int) : Except DBError Store :=
  if s.projectTags.any (fun r => r.tagId == id) then
    .error (.fkViolation "project_tags" "tag_id")
  else
    .ok { s with tags := s.tags.filter (fun t => t.id != id) }

/-- Delete a project-tag association by its composite key. -/
def Store.deleteProjectTag (s : Store) (projectId tagId : Int) : Except DBError Store :=
  .ok { s with projectTags :=
                 s.projectTags.filter (fun r => !(r.projectId == projectId && r.tagId == tagId)) }

/-- Delete a skill by id. -/
def Store.deleteSkill (s : Store) (id : Int) : Except DBError Store :=
  .ok { s with skills := s.skills.filter (fun k => k.id != id) }

/-- Delete an experience by id; rejected while an `experience_details`
row still references it. -/
def Store.deleteExperience (s : Store) (id : Int) : Except DBError Store :=
  if s.experienceDetails.any (fun d => d.experienceId == id) then
    .error (.fkViolation "experience_details" "experience_id")
  else
    .ok { s with experiences := s.experiences.filter (fun e => e.id != id) }

/-- Delete an experience detail by id. -/
def Store.deleteExperienceDetail (s : Store) (id : Int) : Except DBError Store :=
  .ok { s with experienceDetails := s.experienceDetails.filter (fun d => d.id != id) }

/-- The states the store can be in: everything obtainable from the empty
database by successful inserts and deletes. -/
inductive Reachable : Store → Prop where
  | empty : Reachable Store.empty
  | insertMessage {s s' : Store} {v : InsertMessage} {now : Int} :
      Reachable s → s.insertMessage v now = .ok s' → Reachable s'
  | insertUser {s s' : Store} {v : InsertUser} :
      Reachable s → s.insertUser v = .ok s' → Reachable s'
  | insertProject {s s' : Store} {v : InsertProject} {now : Int} :
      Reachable s → s.insertProject v now = .ok s' → Reachable s'
  | insertTag {s s' : Store} {v : InsertTag} :
      Reachable s → s.insertTag v = .ok s' → Reachable s'
  | insertProjectTag {s s' : Store} {v : InsertProjectTag} :
      Reachable s → s.insertProjectTag v = .ok s' → Reachable s'
  | insertSkill {s s' : Store} {v : InsertSkill} :
      Reachable s → s.insertSkill v = .ok s' → Reachable s'
  | insertExperience {s s' : Store} {v : InsertExperience} :
      Reachable s → s.insertExperience v = .ok s' → Reachable s'
  | insertExperienceDetail {s s' : Store} {v : InsertExperienceDetail} :
      Reachable s → s.insertExperienceDetail v = .ok s' → Reachable s'
  | deleteMessage {s s' : Store} {id : Int} :
      Reachable s → s.deleteMessage id = .ok s' → Reachable s'
  | deleteUser {s s' : Store} {id : Int} :
      Reachable s → s.deleteUser id = .ok s' → Reachable s'
  | deleteProject {s s' : Store} {id : Int} :
      Reachable s → s.deleteProject id = .ok s' → Reachable s'
  | deleteTag {s s' : Store} {id : Int} :
      Reachable s → s.deleteTag id = .ok s' → Reachable s'
  | deleteProjectTag {s s' : Store} {projectId tagId : Int} :
      Reachable s → s.deleteProjectTag projectId tagId = .ok s' → Reachable s'
  | deleteSkill {s s' : Store} {id : Int} :
      Reachable s → s.deleteSkill id = .ok s' → Reachable s'
  | deleteExperience {s s' : Store} {id : Int} :
      Reachable s → s.deleteExperience id = .ok s' → Reachable s'
  | deleteExperienceDetail {s s' : Store} {id : Int} :
      Reachable s → s.deleteExperienceDetail id = .ok s' → Reachable s'


/-!
## Invariants of reachable stores
-/

/-- The composite primary key of `project_tags`: no two rows agree on
both `project_id` and `tag_id`. -/
def pairsDistinct (s : Store) : Prop :=
  s.projectTags.Pairwise (fun a b => a.projectId ≠ b.projectId ∨ a.tagId ≠ b.tagId)

/-- UNIQUE on `users.username`. -/
def usernamesUnique (s : Store) : Prop :=
  s.users.Pairwise (fun a b => a.username ≠ b.username)

/-- UNIQUE on `tags.name`. -/
def tagNamesUnique (s : Store) : Prop :=
  s.tags.Pairwise (fun a b => a.name ≠ b.name)

/-- The declared foreign keys: every `project_tags` row references an
existing project and tag, every `experience_details` row an existing
experience. -/
def refsOk (s : Store) : Prop :=
  (∀ pt ∈ s.projectTags,
     (∃ p ∈ s.projects, p.id = pt.projectId) ∧ (∃ t ∈ s.tags, t.id = pt.tagId)) ∧
  (∀ d ∈ s.experienceDetails, ∃ e ∈ s.experiences, e.id = d.experienceId)

/-- All constraint invariants together. -/
def StoreInv (s : Store) : Prop :=
  pairsDistinct s ∧ usernamesUnique s ∧ tagNamesUnique s ∧ refsOk s

theorem pairwise_append_one {α : Type} {R : α → α → Prop} {l : List α} {x : α}
    (h : l.Pairwise R) (hx : ∀ a ∈ l, R a x) : (l ++ [x]).Pairwise R := by
  rw [List.pairwise_append]
  refine ⟨h, List.pairwise_singleton R x, ?_⟩
  intro a ha b hb
  simp only [List.mem_singleton] at hb
  subst hb
  exact hx a ha

/-- Every reachable store satisfies all the declared constraints. -/
theorem reachable_inv {s : Store} (h : Reachable s) : StoreInv s := by
  induction h with
  | empty =>
    simp [StoreInv, pairsDistinct, usernamesUnique, tagNamesUnique, refsOk, Store.empty]
  | insertMessage hr heq ih =>
    simp only [Store.insertMessage, Except.ok.injEq] at heq
    subst heq; exact ih
  | insertUser hr heq ih =>
    unfold Store.insertUser at heq
    split at heq
    · exact absurd heq (by simp)
    · rename_i hguard
      simp only [Except.ok.injEq] at heq
      subst heq
      simp only [List.any_eq_true, beq_iff_eq, not_exists, not_and] at hguard
      obtain ⟨h1, h2, h3, h4⟩ := ih
      refine ⟨h1, ?_, h3, h4⟩
      refine pairwise_append_one h2 ?_
      intro a ha
      exact hguard a ha
  | insertProject hr heq ih =>
    simp only [Store.insertProject, Except.ok.injEq] at heq
    subst heq
    obtain ⟨h1, h2, h3, h4, h5⟩ := ih
    refine ⟨h1, h2, h3, ?_, h5⟩
    intro pt hpt
    obtain ⟨⟨p, hp, hpe⟩, ⟨t, ht, hte⟩⟩ := h4 pt hpt
    exact ⟨⟨p, by simp [hp], hpe⟩, ⟨t, ht, hte⟩⟩
  | insertTag hr heq ih =>
    unfold Store.insertTag at heq
    split at heq
    · exact absurd heq (by simp)
    · rename_i hguard
      simp only [Except.ok.injEq] at heq
      subst heq
      simp only [List.any_eq_true, beq_iff_eq, not_exists, not_and] at hguard
      obtain ⟨h1, h2, h3, h4, h5⟩ := ih
      refine ⟨h1, h2, ?_, ?_, h5⟩
      · refine pairwise_append_one h3 ?_
        intro a ha
        exact hguard a ha
      · intro pt hpt
        obtain ⟨⟨p, hp, hpe⟩, ⟨t, ht, hte⟩⟩ := h4 pt hpt
        exact ⟨⟨p, hp, hpe⟩, ⟨t, by simp [ht], hte⟩⟩
  | insertProjectTag hr heq ih =>
    unfold Store.insertProjectTag at heq
    split at heq
    · exact absurd heq (by simp)
    · rename_i hgp
      split at heq
      · exact absurd heq (by simp)
      · rename_i hgt
        split at heq
        · exact absurd heq (by simp)
        · rename_i hgpk
          simp only [Except.ok.injEq] at heq
          subst heq
          simp [List.any_eq_true] at hgp hgt
          simp [List.any_eq_true] at hgpk
          obtain ⟨h1, h2, h3, h4, h5⟩ := ih
          refine ⟨?_, h2, h3, ?_, h5⟩
          · refine pairwise_append_one h1 ?_
            intro a ha
            by_contra hcon
            push_neg at hcon
            exact hgpk a ha hcon.1 hcon.2
          · intro pt hpt
            simp only [List.mem_append, List.mem_singleton] at hpt
            rcases hpt with hpt | hpt
            · exact h4 pt hpt
            · subst hpt
              obtain ⟨p, hp, hpe⟩ := hgp
              obtain ⟨t, ht, hte⟩ := hgt
              exact ⟨⟨p, hp, hpe⟩, ⟨t, ht, hte⟩⟩
  | insertSkill hr heq ih =>
    unfold Store.insertSkill at heq
    split at heq
    · exact absurd heq (by simp)
    · simp only [Except.ok.injEq] at heq
      subst heq; exact ih
  | insertExperience hr heq ih =>
    simp only [Store.insertExperience, Except.ok.injEq] at heq
    subst heq
    obtain ⟨h1, h2, h3, h4, h5⟩ := ih
    refine ⟨h1, h2, h3, h4, ?_⟩
    intro d hd
    obtain ⟨e, he, hee⟩ := h5 d hd
    exact ⟨e, by simp [he], hee⟩
  | insertExperienceDetail hr heq ih =>
    unfold Store.insertExperienceDetail at heq
    split at heq
    · exact absurd heq (by simp)
    · rename_i hguard
      simp only [Except.ok.injEq] at heq
      subst heq
      simp [List.any_eq_true] at hguard
      obtain ⟨h1, h2, h3, h4, h5⟩ := ih
      refine ⟨h1, h2, h3, h4, ?_⟩
      intro d hd
      simp only [List.mem_append, List.mem_singleton] at hd
      rcases hd with hd | hd
      · exact h5 d hd
      · subst hd
        obtain ⟨e, he, hee⟩ := hguard
        exact ⟨e, he, hee⟩
  | deleteMessage hr heq ih =>
    simp only [Store.deleteMessage, Except.ok.injEq] at heq
    subst heq; exact ih
  | deleteUser hr heq ih =>
    simp only [Store.deleteUser, Except.ok.injEq] at heq
    subst heq
    obtain ⟨h1, h2, h3, h4⟩ := ih
    exact ⟨h1, h2.sublist (List.filter_sublist _), h3, h4⟩
  | deleteProject hr heq ih =>
    unfold Store.deleteProject at heq
    split at heq
    · exact absurd heq (by simp)
    · rename_i hguard
      simp only [Except.ok.injEq] at heq
      subst heq
      simp only [List.any_eq_true, beq_iff_eq, not_exists, not_and] at hguard
      obtain ⟨h1, h2, h3, h4, h5⟩ := ih
      refine ⟨h1, h2, h3, ?_, h5⟩
      intro pt hpt
      obtain ⟨⟨p, hp, hpe⟩, ⟨t, ht, hte⟩⟩ := h4 pt hpt
      refine ⟨⟨p, ?_, hpe⟩, ⟨t, ht, hte⟩⟩
      rw [List.mem_filter]
      refine ⟨hp, ?_⟩
      simp only [bne_iff_ne, ne_eq]
      intro hpid
      exact hguard pt hpt (by rw [← hpe, hpid])
  | deleteTag hr heq ih =>
    unfold Store.deleteTag at heq
    split at heq
    · exact absurd heq (by simp)
    · rename_i hguard
      simp only [Except.ok.injEq] at heq
      subst heq
      simp only [List.any_eq_true, beq_iff_eq, not_exists, not_and] at hguard
      obtain ⟨h1, h2, h3, h4, h5⟩ := ih
      refine ⟨h1, h2, h3.sublist (List.filter_sublist _), ?_, h5⟩
      intro pt hpt
      obtain ⟨⟨p, hp, hpe⟩, ⟨t, ht, hte⟩⟩ := h4 pt hpt
      refine ⟨⟨p, hp, hpe⟩, ⟨t, ?_, hte⟩⟩
      rw [List.mem_filter]
      refine ⟨ht, ?_⟩
      simp only [bne_iff_ne, ne_eq]
      intro htid
      exact hguard pt hpt (by rw [← hte, htid])
  | deleteProjectTag hr heq ih =>
    simp only [Store.deleteProjectTag, Except.ok.injEq] at heq
    subst heq
    obtain ⟨h1, h2, h3, h4, h5⟩ := ih
    refine ⟨h1.sublist (List.filter_sublist _), h2, h3, ?_, h5⟩
    intro pt hpt
    exact h4 pt (List.mem_of_mem_filter hpt)
  | deleteSkill hr heq ih =>
    simp only [Store.deleteSkill, Except.ok.injEq] at heq
    subst heq; exact ih
  | deleteExperience hr heq ih =>
    unfold Store.deleteExperience at heq
    split at heq
    · exact absurd heq (by simp)
    · rename_i hguard
      simp only [Except.ok.injEq] at heq
      subst heq
      simp only [List.any_eq_true, beq_iff_eq, not_exists, not_and] at hguard
      obtain ⟨h1, h2, h3, h4, h5⟩ := ih
      refine ⟨h1, h2, h3, h4, ?_⟩
      intro d hd
      obtain ⟨e, he, hee⟩ := h5 d hd
      refine ⟨e, ?_, hee⟩
      rw [List.mem_filter]
      refine ⟨he, ?_⟩
      simp only [bne_iff_ne, ne_eq]
      intro heid
      exact hguard d hd (by rw [← hee, heid])
  | deleteExperienceDetail hr heq ih =>
    simp only [Store.deleteExperienceDetail, Except.ok.injEq] at heq
    subst heq
    obtain ⟨h1, h2, h3, h4, h5⟩ := ih
    refine ⟨h1, h2, h3, h4, ?_⟩
    intro d hd
    exact h5 d (List.mem_of_mem_filter hd)

/-!
## Ordered retrieval of experience details
-/

/-- Insert `x` into an already sorted list, before the first element it
does not come after. -/
def insertSorted {α : Type} (le : α → α → Bool) (x : α) : List α → List α
  | [] => [x]
  | y :: ys => if le x y then x :: y :: ys else y :: insertSorted le x ys

/-- Insertion sort with respect to a boolean comparison. -/
def sortBy {α : Type} (le : α → α → Bool) : List α → List α
  | [] => []
  | x :: xs => insertSorted le x (sortBy le xs)

/-- Modelled from the spec: the display comparison on experience
details — `order` ascending with ties broken by `id` ascending (a row
without an `order` value sorts last, as in PostgreSQL `ASC NULLS
LAST`).  The retrieval that uses it lives in the persistence layer
consuming this schema, which is not part of this repository's source. -/
def detailLe (a b : ExperienceDetail) : Bool :=
  match a.order, b.order with
  | some x, some y => decide (x < y) || (decide (x = y) && decide (a.id ≤ b.id))
  | some _, none => true
  | none, some _ => false
  | none, none => decide (a.id ≤ b.id)

/-- Modelled from the spec: fetching the `experience_details` children
of one experience, "ordered by the `order` field ascending, ties broken
by identity ascending".  The join/ordering operation itself is a
persistence-layer concern and has no implementation in src/. -/
def Store.experienceDetailsFor (s : Store) (eid : Int) : List ExperienceDetail :=
  sortBy detailLe (s.experienceDetails.filter (fun d => d.experienceId == eid))

/-!
## Concrete stores used to witness the reachable-state theorems
-/

/-- `Store.empty` after inserting one project. -/
def pStoreA : Store :=
  { Store.empty with
      projects := [⟨1, "Portfolio", "desc", none, "https://github.com/x/y", none, some false, 0⟩],
      nextProjectId := 2 }

/-- `pStoreA` after inserting one tag. -/
def pStoreB : Store :=
  { pStoreA with tags := [⟨1, "TypeScript", some "gray"⟩], nextTagId := 2 }

/-- `pStoreB` after associating the project with the tag. -/
def pStoreC : Store :=
  { pStoreB with projectTags := [⟨1, 1⟩] }

/-- `Store.empty` after inserting one user. -/
def uStore : Store :=
  { Store.empty with users := [⟨1, "melvin", "pw"⟩], nextUserId := 2 }

/-!
## Claims
-/

/-- The field names of a zod object schema / a persisted shape. -/
def fields (cols : List Column) : List String :=
  cols.map Column.name

/-- `xs` is a strict subset of `ys`. -/
def strictSubsetOf (xs ys : List String) : Prop :=
  (∀ x ∈ xs, x ∈ ys) ∧ ∃ y ∈ ys, y ∉ xs

instance (xs ys : List String) : Decidable (strictSubsetOf xs ys) :=
  decidable_of_iff ((∀ x ∈ xs, x ∈ ys) ∧ ∃ y ∈ ys, y ∉ xs) Iff.rfl

/-- C1: for each of the eight entities, validating a candidate record
holding exactly the entity's required insertable fields, each correctly
typed, succeeds and returns exactly the input record — no field added,
dropped, or changed. -/
theorem C1_validate_exact_required :
    (∀ (nm em ms : String),
       validateWith insertMessageSchema
         [("name", Value.str nm), ("email", Value.str em), ("message", Value.str ms)]
         = .ok [("name", Value.str nm), ("email", Value.str em), ("message", Value.str ms)]) ∧
    (∀ (un pw : String),
       validateWith insertUserSchema
         [("username", Value.str un), ("password", Value.str pw)]
         = .ok [("username", Value.str un), ("password", Value.str pw)]) ∧
    (∀ (ti de gh : String),
       validateWith insertProjectSchema
         [("title", Value.str ti), ("description", Value.str de), ("github", Value.str gh)]
         = .ok [("title", Value.str ti), ("description", Value.str de), ("github", Value.str gh)]) ∧
    (∀ (nm : String),
       validateWith insertTagSchema [("name", Value.str nm)]
         = .ok [("name", Value.str nm)]) ∧
    (∀ (pid tid : Int),
       validateWith insertProjectTagSchema
         [("projectId", Value.int pid), ("tagId", Value.int tid)]
         = .ok [("projectId", Value.int pid), ("tagId", Value.int tid)]) ∧
    (∀ (nm ic ca : String),
       validateWith insertSkillSchema
         [("name", Value.str nm), ("icon", Value.str ic), ("category", Value.str ca)]
         = .ok [("name", Value.str nm), ("icon", Value.str ic), ("category", Value.str ca)]) ∧
    (∀ (ti su ty : String),
       validateWith insertExperienceSchema
         [("title", Value.str ti), ("subtitle", Value.str su), ("type", Value.str ty)]
         = .ok [("title", Value.str ti), ("subtitle", Value.str su), ("type", Value.str ty)]) ∧
    (∀ (eid : Int) (de : String),
       validateWith insertExperienceDetailSchema
         [("experienceId", Value.int eid), ("detail", Value.str de)]
         = .ok [("experienceId", Value.int eid), ("detail", Value.str de)]) :=
  ⟨fun _ _ _ => rfl, fun _ _ => rfl, fun _ _ _ => rfl, fun _ => rfl,
   fun _ _ => rfl, fun _ _ _ => rfl, fun _ _ _ => rfl, fun _ _ => rfl⟩

/-- A required field that a candidate record does not contain checks to
the violation naming that field. -/
theorem checkField_missing_required {c : Column} {r : Record}
    (hreq : c.isOptional = false) (hmiss : r.lookup c.name = none) :
    checkField c r = .inr ⟨c.name, "Required"⟩ := by
  unfold checkField
  rw [hmiss]
  simp [hreq]

/-- Validating any candidate record that misses any required field of
the schema fails, and the issue list names that field. -/
theorem validate_missing_required (cols : List Column) (c : Column) (hc : c ∈ cols)
    (hreq : c.isOptional = false) (r : Record) (hmiss : r.lookup c.name = none) :
    ∃ issues, validateWith cols r = .error issues ∧
      Issue.mk c.name "Required" ∈ issues := by
  have hmem : Issue.mk c.name "Required" ∈ collectIssues cols r := by
    unfold collectIssues
    rw [List.mem_filterMap]
    refine ⟨.inr ⟨c.name, "Required"⟩, ?_, rfl⟩
    rw [List.mem_map]
    exact ⟨c, hc, checkField_missing_required hreq hmiss⟩
  unfold validateWith
  cases h : collectIssues cols r with
  | nil => rw [h] at hmem; exact absurd hmem (by simp)
  | cons a l =>
    refine ⟨a :: l, rfl, ?_⟩
    exact h ▸ hmem

/-- C2: validation is total — it always returns either a parsed value or
a non-empty structured issue list, never an exception; for each of the
eight entities' insert schemas, EVERY candidate record missing any one
required field fails validation with an issue list naming that field;
and for each (entity, required field) pair a concrete candidate holding
the other required fields yields exactly the issue naming the missing
field. -/
theorem C2_missing_required_field :
    (∀ (cols : List Column) (r : Record),
       (∃ out, validateWith cols r = .ok out) ∨
       (∃ issues, validateWith cols r = .error issues ∧ issues ≠ [])) ∧
    (∀ cols ∈ [insertMessageSchema, insertUserSchema, insertProjectSchema,
               insertTagSchema, insertProjectTagSchema, insertSkillSchema,
               insertExperienceSchema, insertExperienceDetailSchema],
       ∀ c ∈ cols, c.isOptional = false →
         ∀ r : Record, r.lookup c.name = none →
           ∃ issues, validateWith cols r = .error issues ∧
             Issue.mk c.name "Required" ∈ issues) ∧
    (validateWith insertMessageSchema [("email", .str "e"), ("message", .str "m")]
       = .error [⟨"name", "Required"⟩]) ∧
    (validateWith insertMessageSchema [("name", .str "n"), ("message", .str "m")]
       = .error [⟨"email", "Required"⟩]) ∧
    (validateWith insertMessageSchema [("name", .str "n"), ("email", .str "e")]
       = .error [⟨"message", "Required"⟩]) ∧
    (validateWith insertUserSchema [("password", .str "p")]
       = .error [⟨"username", "Required"⟩]) ∧
    (validateWith insertUserSchema [("username", .str "u")]
       = .error [⟨"password", "Required"⟩]) ∧
    (validateWith insertProjectSchema [("description", .str "d"), ("github", .str "g")]
       = .error [⟨"title", "Required"⟩]) ∧
    (validateWith insertProjectSchema [("title", .str "t"), ("github", .str "g")]
       = .error [⟨"description", "Required"⟩]) ∧
    (validateWith insertProjectSchema [("title", .str "t"), ("description", .str "d")]
       = .error [⟨"github", "Required"⟩]) ∧
    (validateWith insertTagSchema [] = .error [⟨"name", "Required"⟩]) ∧
    (validateWith insertProjectTagSchema [("tagId", .int 1)]
       = .error [⟨"projectId", "Required"⟩]) ∧
    (validateWith insertProjectTagSchema [("projectId", .int 1)]
       = .error [⟨"tagId", "Required"⟩]) ∧
    (validateWith insertSkillSchema [("icon", .str "i"), ("category", .str "c")]
       = .error [⟨"name", "Required"⟩]) ∧
    (validateWith insertSkillSchema [("name", .str "n"), ("category", .str "c")]
       = .error [⟨"icon", "Required"⟩]) ∧
    (validateWith insertSkillSchema [("name", .str "n"), ("icon", .str "i")]
       = .error [⟨"category", "Required"⟩]) ∧
    (validateWith insertExperienceSchema [("subtitle", .str "s"), ("type", .str "w")]
       = .error [⟨"title", "Required"⟩]) ∧
    (validateWith insertExperienceSchema [("title", .str "t"), ("type", .str "w")]
       = .error [⟨"subtitle", "Required"⟩]) ∧
    (validateWith insertExperienceSchema [("title", .str "t"), ("subtitle", .str "s")]
       = .error [⟨"type", "Required"⟩]) ∧
    (validateWith insertExperienceDetailSchema [("detail", .str "d")]
       = .error [⟨"experienceId", "Required"⟩]) ∧
    (validateWith insertExperienceDetailSchema [("experienceId", .int 1)]
       = .error [⟨"detail", "Required"⟩]) := by
  refine ⟨?_, ?_, ?_, ?_, ?_, ?_, ?_, ?_, ?_, ?_, ?_, ?_, ?_, ?_, ?_, ?_, ?_, ?_, ?_, ?_, ?_⟩
  · intro cols r
    unfold validateWith
    cases h : collectIssues cols r with
    | nil => exact Or.inl ⟨_, rfl⟩
    | cons a l => exact Or.inr ⟨a :: l, rfl, by simp⟩
  · intro cols _ c hc hreq r hmiss
    exact validate_missing_required cols c hc hreq r hmiss
  all_goals decide

theorem C2_missing_required_field_witness :
    ∃ issues,
      validateWith insertUserSchema [("password", Value.str "p")] = .error issues ∧
      Issue.mk "username" "Required" ∈ issues :=
  C2_missing_required_field.2.1 insertUserSchema (by decide)
    ⟨"username", "username", .text, true, false, true, none⟩ (by decide) (by decide)
    [("password", Value.str "p")] (by decide)

/-- C3 counterexample: the claim that callers may not set any
server-defaulted column is false — `featured`, `color` and `order` are
picked into the insert schemas, a supplied `featured` value is kept by
validation, and the `project_tags` insert schema is the whole persisted
shape (not a strict subset). -/
theorem C3_counterexample :
    "featured" ∈ fields insertProjectSchema ∧
    "color" ∈ fields insertTagSchema ∧
    "order" ∈ fields insertSkillSchema ∧
    "order" ∈ fields insertExperienceSchema ∧
    "order" ∈ fields insertExperienceDetailSchema ∧
    validateWith insertProjectSchema
      [("title", .str "t"), ("description", .str "d"), ("github", .str "g"),
       ("featured", .bool true)]
      = .ok [("title", .str "t"), ("description", .str "d"), ("github", .str "g"),
             ("featured", .bool true)] ∧
    fields insertProjectTagSchema = fields projectTags.columns := by
  decide

/-- C3 (amended): every insert schema omits the identity column `id` and
the server-defaulted `createdAt`; for the seven entities that have an
`id` column the insertable shape is a strict subset of the persisted
shape, while `ProjectTag`'s insertable shape has exactly the persisted
fields; the server-defaulted columns `featured`, `color` and `order`
remain caller-settable. -/
theorem C3_insertable_shape_amended :
    (strictSubsetOf (fields insertMessageSchema) (fields messages.columns) ∧
       "id" ∉ fields insertMessageSchema ∧ "createdAt" ∉ fields insertMessageSchema) ∧
    (strictSubsetOf (fields insertUserSchema) (fields users.columns) ∧
       "id" ∉ fields insertUserSchema) ∧
    (strictSubsetOf (fields insertProjectSchema) (fields projects.columns) ∧
       "id" ∉ fields insertProjectSchema ∧ "createdAt" ∉ fields insertProjectSchema ∧
       "featured" ∈ fields insertProjectSchema) ∧
    (strictSubsetOf (fields insertTagSchema) (fields tags.columns) ∧
       "id" ∉ fields insertTagSchema ∧ "color" ∈ fields insertTagSchema) ∧
    (fields insertProjectTagSchema = fields projectTags.columns) ∧
    (strictSubsetOf (fields insertSkillSchema) (fields skills.columns) ∧
       "id" ∉ fields insertSkillSchema ∧ "order" ∈ fields insertSkillSchema) ∧
    (strictSubsetOf (fields insertExperienceSchema) (fields experiences.columns) ∧
       "id" ∉ fields insertExperienceSchema ∧ "order" ∈ fields insertExperienceSchema) ∧
    (strictSubsetOf (fields insertExperienceDetailSchema) (fields experienceDetails.columns) ∧
       "id" ∉ fields insertExperienceDetailSchema ∧
       "order" ∈ fields insertExperienceDetailSchema) := by
  decide

/-- C9: `experiences.type` is schema-level unconstrained text: any
string whatsoever — "work", "education", or anything else — passes
validation when the other required fields are correctly typed. -/
theorem C9_type_unconstrained :
    (∀ (s ti su : String),
       validateWith insertExperienceSchema
         [("title", Value.str ti), ("subtitle", Value.str su), ("type", Value.str s)]
         = .ok [("title", Value.str ti), ("subtitle", Value.str su), ("type", Value.str s)]) ∧
    (∀ c ∈ experiences.columns, c.name = "type" →
       c.ty = ColType.text ∧ c.notNull = true) := by
  refine ⟨fun _ _ _ => rfl, by decide⟩

/-- C10: the server-defaulted columns `featured`, `color` and `order`
are nullable in the persisted shape, their validators accept an explicit
null, and an explicit null is persisted as NULL instead of the
default. -/
theorem C10_defaulted_columns_nullable :
    (∀ c ∈ projects.columns, c.name = "featured" → c.notNull = false) ∧
    (∀ c ∈ tags.columns, c.name = "color" → c.notNull = false) ∧
    (∀ c ∈ skills.columns, c.name = "order" → c.notNull = false) ∧
    (∀ c ∈ experiences.columns, c.name = "order" → c.notNull = false) ∧
    (∀ c ∈ experienceDetails.columns, c.name = "order" → c.notNull = false) ∧
    (validateWith insertProjectSchema
       [("title", .str "t"), ("description", .str "d"), ("github", .str "g"),
        ("featured", .null)]
       = .ok [("title", .str "t"), ("description", .str "d"), ("github", .str "g"),
              ("featured", .null)]) ∧
    (validateWith insertTagSchema [("name", .str "n"), ("color", .null)]
       = .ok [("name", .str "n"), ("color", .null)]) ∧
    (validateWith insertSkillSchema
       [("name", .str "n"), ("icon", .str "i"), ("category", .str "c"), ("order", .null)]
       = .ok [("name", .str "n"), ("icon", .str "i"), ("category", .str "c"),
              ("order", .null)]) ∧
    (validateWith insertExperienceSchema
       [("title", .str "t"), ("subtitle", .str "s"), ("type", .str "w"), ("order", .null)]
       = .ok [("title", .str "t"), ("subtitle", .str "s"), ("type", .str "w"),
              ("order", .null)]) ∧
    (validateWith insertExperienceDetailSchema
       [("experienceId", .int 1), ("detail", .str "d"), ("order", .null)]
       = .ok [("experienceId", .int 1), ("detail", .str "d"), ("order", .null)]) ∧
    ((Project.fromInsert 1 ⟨"t", "d", .absent, "g", .absent, .null⟩ 0).featured = none) ∧
    ((Tag.fromInsert 1 ⟨"n", .null⟩).color = none) ∧
    ((Skill.fromInsert 1 ⟨"n", "i", "c", .absent, .null⟩).order = none) ∧
    ((Experience.fromInsert 1 ⟨"t", "s", .absent, "w", .null⟩).order = none) ∧
    ((ExperienceDetail.fromInsert 1 ⟨1, "d", .null⟩).order = none) := by
  decide

/-- C4: inserting a Project whose insertable value omits `featured`
persists `featured = false`; a Tag omitting `color` persists
`color = "gray"`; an Experience or Skill omitting `order` persists
`order = 0`. -/
theorem C4_default_application :
    (∀ (s : Store) (ti de gh : String) (t : Int),
       s.insertProject ⟨ti, de, .absent, gh, .absent, .absent⟩ t
         = .ok { s with
                   projects := s.projects
                     ++ [⟨s.nextProjectId, ti, de, none, gh, none, some false, t⟩],
                   nextProjectId := s.nextProjectId + 1 }) ∧
    (∀ (s s' : Store) (nm : String),
       s.insertTag ⟨nm, .absent⟩ = .ok s' →
         s'.tags = s.tags ++ [⟨s.nextTagId, nm, some "gray"⟩]) ∧
    (∀ (s : Store) (ti su ty : String),
       s.insertExperience ⟨ti, su, .absent, ty, .absent⟩
         = .ok { s with
                   experiences := s.experiences
                     ++ [⟨s.nextExperienceId, ti, su, none, ty, some 0⟩],
                   nextExperienceId := s.nextExperienceId + 1 }) ∧
    (∀ (s s' : Store) (nm ic ca : String),
       s.insertSkill ⟨nm, ic, ca, .absent, .absent⟩ = .ok s' →
         s'.skills = s.skills ++ [⟨s.nextSkillId, nm, ic, ca, none, some 0⟩]) := by
  refine ⟨fun _ _ _ _ _ => rfl, ?_, fun _ _ _ _ => rfl, ?_⟩
  · intro s s' nm h
    unfold Store.insertTag at h
    split at h
    · exact absurd h (by simp)
    · simp only [Except.ok.injEq] at h
      subst h
      rfl
  · intro s s' nm ic ca h
    unfold Store.insertSkill at h
    split at h
    · exact absurd h (by simp)
    · simp only [Except.ok.injEq] at h
      subst h
      rfl

/-- `Store.empty` after inserting a tag omitting `color`. -/
def tagStore : Store :=
  { Store.empty with tags := [⟨1, "TypeScript", some "gray"⟩], nextTagId := 2 }

/-- `Store.empty` after inserting a skill omitting `order`. -/
def skillStore : Store :=
  { Store.empty with skills := [⟨1, "React", "ri", "frontend", none, some 0⟩], nextSkillId := 2 }

theorem C4_default_application_witness :
    tagStore.tags = Store.empty.tags ++ [⟨1, "TypeScript", some "gray"⟩] ∧
    skillStore.skills = Store.empty.skills ++ [⟨1, "React", "ri", "frontend", none, some 0⟩] :=
  ⟨C4_default_application.2.1 Store.empty tagStore "TypeScript" (by decide),
   C4_default_application.2.2.2 Store.empty skillStore "React" "ri" "frontend" (by decide)⟩

/-- C5: `project_tags` has no `id` column, its primary key is the
(projectId, tagId) pair, every reachable store has at most one row per
pair, and re-inserting an existing pair fails with a primary-key
violation (the erroneous insert produces no new store). -/
theorem C5_composite_primary_key :
    ("id" ∉ fields projectTags.columns ∧ projectTags.pk = ["projectId", "tagId"]) ∧
    (∀ s : Store, Reachable s → pairsDistinct s) ∧
    ((Store.empty.insertProject
        ⟨"Portfolio", "desc", .absent, "https://github.com/x/y", .absent, .absent⟩ 0).bind
       (fun s1 => (s1.insertTag ⟨"TypeScript", .absent⟩).bind
         (fun s2 => (s2.insertProjectTag ⟨1, 1⟩).bind
           (fun s3 => s3.insertProjectTag ⟨1, 1⟩)))
       = .error (.pkViolation "project_tags")) :=
  ⟨by decide, fun _ h => (reachable_inv h).1, by decide⟩

theorem C5_composite_primary_key_witness : pairsDistinct pStoreC :=
  (C5_composite_primary_key.2.1) pStoreC
    (@Reachable.insertProjectTag pStoreB pStoreC ⟨1, 1⟩
      (@Reachable.insertTag pStoreA pStoreB ⟨"TypeScript", ColVal.absent⟩
        (@Reachable.insertProject Store.empty pStoreA
          ⟨"Portfolio", "desc", ColVal.absent, "https://github.com/x/y",
           ColVal.absent, ColVal.absent⟩ 0
          Reachable.empty (by decide))
        (by decide))
      (by decide))

/-- C6: `users.username` and `tags.name` are unique in every reachable
store; inserting a second user with a present username (or tag with a
present name) fails with a unique-constraint violation, and since an
insert yields either a new store or an error, the failing insert leaves
the store as it was. -/
theorem C6_unique_username_tagname :
    (∀ s : Store, Reachable s → usernamesUnique s ∧ tagNamesUnique s) ∧
    (∀ (s : Store) (v : InsertUser), (∃ u ∈ s.users, u.username = v.username) →
       s.insertUser v = .error (.uniqueViolation "users" "username")) ∧
    (∀ (s : Store) (v : InsertTag), (∃ t ∈ s.tags, t.name = v.name) →
       s.insertTag v = .error (.uniqueViolation "tags" "name")) ∧
    ((Store.empty.insertUser ⟨"melvin", "pw"⟩).bind
       (fun s1 => s1.insertUser ⟨"melvin", "other"⟩)
       = .error (.uniqueViolation "users" "username")) := by
  refine ⟨fun s h => ⟨(reachable_inv h).2.1, (reachable_inv h).2.2.1⟩, ?_, ?_, by decide⟩
  · intro s v hv
    obtain ⟨u, hu, he⟩ := hv
    have hc : (s.users.any fun u => u.username == v.username) = true := by
      simp only [List.any_eq_true, beq_iff_eq]
      exact ⟨u, hu, he⟩
    unfold Store.insertUser
    rw [if_pos hc]
  · intro s v hv
    obtain ⟨t, ht, he⟩ := hv
    have hc : (s.tags.any fun t => t.name == v.name) = true := by
      simp only [List.any_eq_true, beq_iff_eq]
      exact ⟨t, ht, he⟩
    unfold Store.insertTag
    rw [if_pos hc]

theorem C6_unique_username_tagname_witness :
    usernamesUnique uStore ∧
    uStore.insertUser ⟨"melvin", "x"⟩ = .error (.uniqueViolation "users" "username") :=
  ⟨(C6_unique_username_tagname.1 uStore
      (@Reachable.insertUser Store.empty uStore ⟨"melvin", "pw"⟩ Reachable.empty (by decide))).1,
   C6_unique_username_tagname.2.1 uStore ⟨"melvin", "x"⟩ ⟨⟨1, "melvin", "pw"⟩, by decide, rfl⟩⟩

/-- C7: in every reachable store all `project_tags` rows reference an
existing project and tag and all `experience_details` rows an existing
experience; inserting a `project_tags` row whose `tagId` matches no tag
fails with a constraint violation. -/
theorem C7_referential_integrity :
    (∀ s : Store, Reachable s → refsOk s) ∧
    (∀ (s : Store) (v : InsertProjectTag), (∀ t ∈ s.tags, t.id ≠ v.tagId) →
       ∃ e : DBError, s.insertProjectTag v = .error e) ∧
    ((Store.empty.insertProject
        ⟨"Portfolio", "desc", .absent, "https://github.com/x/y", .absent, .absent⟩ 0).bind
       (fun s1 => s1.insertProjectTag ⟨1, 99⟩)
       = .error (.fkViolation "project_tags" "tag_id")) := by
  refine ⟨fun s h => (reachable_inv h).2.2.2, ?_, by decide⟩
  intro s v hv
  unfold Store.insertProjectTag
  split
  · exact ⟨_, rfl⟩
  · split
    · exact ⟨_, rfl⟩
    · rename_i hgt
      exfalso
      simp [List.any_eq_true] at hgt
      obtain ⟨t, ht, hte⟩ := hgt
      exact hv t ht hte

theorem C7_referential_integrity_witness :
    refsOk pStoreC ∧ (∃ e : DBError, pStoreA.insertProjectTag ⟨1, 99⟩ = .error e) :=
  ⟨C7_referential_integrity.1 pStoreC
     (@Reachable.insertProjectTag pStoreB pStoreC ⟨1, 1⟩
       (@Reachable.insertTag pStoreA pStoreB ⟨"TypeScript", ColVal.absent⟩
         (@Reachable.insertProject Store.empty pStoreA
           ⟨"Portfolio", "desc", ColVal.absent, "https://github.com/x/y",
            ColVal.absent, ColVal.absent⟩ 0
           Reachable.empty (by decide))
         (by decide))
       (by decide)),
   C7_referential_integrity.2.1 pStoreA ⟨1, 99⟩ (by decide)⟩

/-- C8: retrieving the detail children of an experience whose three
details were inserted with order values [2, 0, 1] yields them in the
sequence order 0, order 1, order 2 (ids 2, 3, 1). -/
theorem C8_detail_ordering :
    (Store.empty.insertExperience ⟨"Job", "Co", .absent, "work", .absent⟩).bind
      (fun s1 => (s1.insertExperienceDetail ⟨1, "a", .val 2⟩).bind
        (fun s2 => (s2.insertExperienceDetail ⟨1, "b", .val 0⟩).bind
          (fun s3 => (s3.insertExperienceDetail ⟨1, "c", .val 1⟩).map
            (fun s4 => s4.experienceDetailsFor 1))))
      = .ok [⟨2, 1, "b", some 0⟩, ⟨3, 1, "c", some 1⟩, ⟨1, 1, "a", some 2⟩] := by
  decide
